import Mathlib

/-!
Shallow embedding of the CppGuide repository (a C++ tutorial, 27 annotated
source files under src/) together with proofs about the fragments it defines.

Conventions of the embedding:
* C++ `int` is modelled as `Int`: signed overflow is undefined behaviour in
  C++, so on every execution with defined behaviour `int` arithmetic agrees
  with exact integer arithmetic.
* Mutable variables are modelled by explicit stores (`Store`), the heap of
  dynamically allocated objects by `Heap`, and the file system by `FileSys`.
* Each definition carries a doc comment naming the source file and fragment
  it is translated from.
-/

/-! ### src/3-Functions.cpp -/

/-- From src/3-Functions.cpp, lines 18-20:
`int addNumbers(int num1, int num2) { return num1 + num2; }` -/
def addNumbers (num1 num2 : Int) : Int :=
  num1 + num2

/-- A store of `int` variables, addressed by natural numbers.  Used to model
the mutable variables of src/3-Functions.cpp's pass-by-value example. -/
def Store : Type :=
  Nat → Int

/-- Assignment `*a = v` on a store. -/
def Store.write (s : Store) (a : Nat) (v : Int) : Store :=
  fun b => if b = a then v else s b

/-- From src/3-Functions.cpp, lines 63-65: the body of
`void addOne(int num) { num = num + 1; }`, acting on the store slot that
holds the parameter `num`. -/
def addOneBody (s : Store) (numSlot : Nat) : Store :=
  s.write numSlot (s numSlot + 1)

/-- A call `addOne(x)` under C++ pass-by-value semantics
(src/3-Functions.cpp, lines 58-71): the value stored in the caller's
variable `x` (at `xSlot`) is copied into a fresh slot `numSlot` for the
parameter, and the body runs on that copy.  The function returns `void`,
so the resulting store is the whole effect of the call. -/
def callAddOne (s : Store) (xSlot numSlot : Nat) : Store :=
  addOneBody (s.write numSlot (s xSlot)) numSlot

/-! ### src/21-Operator_Overloading.cpp -/

/-- From src/21-Operator_Overloading.cpp, lines 24-32: class `Cents` with a
private `int cents`.  The constructor `Cents(int cents)` stores its argument
(`this->cents = cents`), which is exactly `Cents.mk`. -/
structure Cents where
  cents : Int

/-- `int getCents() { return cents; }` -/
def Cents.getCents (c : Cents) : Int :=
  c.cents

/-- Friend-function overload, lines 35-37:
`Cents operator+(Cents& c1, Cents& c2) { return Cents(c1.cents + c2.cents); }` -/
def centsAddCents (c1 c2 : Cents) : Cents :=
  Cents.mk (c1.cents + c2.cents)

/-- Mixed overload, lines 48-50:
`Cents operator+(Cents& c1, int c2) { return Cents(c1.cents + c2); }` -/
def centsAddInt (c1 : Cents) (c2 : Int) : Cents :=
  Cents.mk (c1.cents + c2)

/-- Mixed overload, lines 51-53:
`Cents operator+(int c1, Cents& c2) { return Cents(c1 + c2.cents); }` -/
def intAddCents (c1 : Int) (c2 : Cents) : Cents :=
  Cents.mk (c1 + c2.cents)

/-- Normal-function overload, lines 62-64:
`Cents operator+(Cents& c1, Cents& c2) { return Cents(c1.getCents() + c2.getCents()); }` -/
def centsAddCentsNormal (c1 c2 : Cents) : Cents :=
  Cents.mk (c1.getCents + c2.getCents)

/-! ### src/15-Classes.cpp -/

/-- From src/15-Classes.cpp, lines 299-315 (the `MyClass.h` fragment): class
`MyClass` with private `int x; int y;` and constructor
`MyClass(int x, int y) { this->x = x; this->y = y; }`.
(The getter fragments `int x() { return x; }` reuse the field names and are
ill-formed C++; they have no definable behaviour and are not embedded.) -/
structure MyClass where
  x : Int
  y : Int

/-- `MyClass(int x, int y) { this->x = x; this->y = y; }` -/
def MyClass.construct (x y : Int) : MyClass :=
  MyClass.mk x y

/-- From src/15-Classes.cpp, lines 321-323:
`int MyClass::getGreater() { return x > y ? x : y; }` -/
def MyClass.getGreater (m : MyClass) : Int :=
  if m.x > m.y then m.x else m.y

/-- From src/15-Classes.cpp, lines 325-327:
`int MyClass::getLesser() { return x < y ? x : y; }` -/
def MyClass.getLesser (m : MyClass) : Int :=
  if m.x < m.y then m.x else m.y

/-- From src/15-Classes.cpp, lines 155-167: class `Person3` with members
`firstName` (default "Jane"), `lastName` (default "Doe") and `age`
(no default: indeterminate until assigned). -/
structure Person3 where
  firstName : String
  lastName : String
  age : Int

/-- The constructor `Person3(std::string firstName, std::string lastName, int age)`:
the members first take their initial values ("Jane", "Doe", and an
indeterminate `int` modelled by the parameter `ageJunk`), then the body
assigns `this->firstName = firstName; this->lastName = lastName;
this->age = age;` in order. -/
def Person3.construct (ageJunk : Int) (firstName lastName : String) (age : Int) : Person3 :=
  let p : Person3 := { firstName := "Jane", lastName := "Doe", age := ageJunk }
  let p := { p with firstName := firstName }
  let p := { p with lastName := lastName }
  { p with age := age }

/-! ### src/22-Smart_Pointers.cpp -/

/-- The heap of dynamically allocated cells: which addresses are currently
allocated. -/
def Heap : Type :=
  Nat → Bool

/-- `delete` on an allocated address releases it. -/
def Heap.free (h : Heap) (a : Nat) : Heap :=
  fun b => if b = a then false else h b

/-- From src/22-Smart_Pointers.cpp, lines 20-35: `SmartPointer<T>` holds an
owned pointer `T* ptr`.  `none` models `nullptr`. -/
structure SmartPointer where
  ptr : Option Nat

/-- `SmartPointer(T* ptr=nullptr) { this->ptr = ptr; }` -/
def SmartPointer.construct (p : Option Nat) : SmartPointer :=
  SmartPointer.mk p

/-- The destructor `~SmartPointer() { delete ptr; }`: deallocates the owned
address when the object is destroyed (`delete nullptr` is a no-op). -/
def SmartPointer.destruct (sp : SmartPointer) (h : Heap) : Heap :=
  match sp.ptr with
  | none => h
  | some a => h.free a

/-! ### src/25-File_IO.cpp -/

/-- The file system: an association list from file names to contents. -/
abbrev FileSys : Type :=
  List (String × String)

/-- The contents of a named file, if it exists. -/
def FileSys.read (fs : FileSys) (name : String) : Option String :=
  match fs with
  | [] => none
  | e :: rest => if e.1 = name then some e.2 else FileSys.read rest name

/-- From src/25-File_IO.cpp, line 5:
`std::ofstream writer("fake_file.txt");`.  Constructing an `std::ofstream`
in its default mode opens the named file for writing: it creates the file
if it does not exist and truncates it to empty if it does. -/
def ofstreamOpen (name : String) (fs : FileSys) : FileSys :=
  (name, "") :: fs.filter (fun e => e.1 ≠ name)

/-- From src/25-File_IO.cpp, line 4:
`std::ifstream reader("fake_file.txt");` followed by the `getline` loop
(lines 9-11): opening a file for reading observes its contents and does not
modify the file system; the observed data is the file's contents (absent
files yield a stream that reads nothing). -/
def ifstreamData (name : String) (fs : FileSys) : String :=
  match fs.read name with
  | none => ""
  | some s => s

/-! ### src/12-Errors&Exceptions.cpp -/

/-- The observable outcome of executing a statement: normal completion, or
termination of the program via `std::abort`. -/
inductive ExecOutcome where
  | ok : ExecOutcome
  | aborted : ExecOutcome
deriving DecidableEq

/-- Semantics of an `assert` statement (src/12-Errors&Exceptions.cpp,
lines 18-19): if the expression evaluates to true the statement does
nothing; if it evaluates to false an error message is displayed and
`std::abort` is called. -/
def assertStmt (cond : Bool) : ExecOutcome :=
  if cond then ExecOutcome.ok else ExecOutcome.aborted

/-- From src/12-Errors&Exceptions.cpp, line 16: `assert (x > 0);` for the
`int x` in scope. -/
def assertXPositive (x : Int) : ExecOutcome :=
  assertStmt (decide (x > 0))

/-- A thrown C++ value of one of the types appearing in the try/catch
example of src/12-Errors&Exceptions.cpp (lines 57-66). -/
inductive ThrownVal where
  | ofInt : Int → ThrownVal
  | ofDouble : ThrownVal

/-- The catch-dispatch of the try/catch example, lines 57-66: a thrown value
is routed to the first catch block of matching type, which writes its
message to `std::cerr`; the function returns that output. -/
def catchDispatch : ThrownVal → String
  | ThrownVal.ofDouble => "We caught an exception of type double\n"
  | ThrownVal.ofInt x => "We caught an int exception with value: " ++ toString x ++ "\n"

/-- The try block of lines 57-60 executes `throw -1;`, so the thrown value
reaching the catch blocks is the `int` -1. -/
def tryBlockThrow : ThrownVal :=
  ThrownVal.ofInt (-1)

/-! ### The include structure of the repository

Transcribed from the `#include` directives of each file under src/.  A
translation unit can only refer to another file's definitions through the
preprocessor (`#include`) or through linking, and the repository has no
build system linking the chapters together, so the quoted-include lists
below carry the entire inter-file reference structure of the source. -/

/-- The 27 source files under src/. -/
def repoSourceFiles : List String :=
  ["05-Strings.cpp", "09-Control_Flow.cpp", "1-Variables.cpp",
   "10-Refs&Pointers.cpp", "11-Scope&Linkage.cpp", "12-Errors&Exceptions.cpp",
   "13-Enumerators.cpp", "14-Structs&templates.cpp", "15-Classes.cpp",
   "16-Vectors.cpp", "17-Arrays.cpp", "18-Iterators.cpp",
   "19-Memory_Allocation.cpp", "2-Types&Conversions.cpp", "20-Functions_Pt2.cpp",
   "21-Operator_Overloading.cpp", "22-Smart_Pointers.cpp",
   "23-Object_Relationships.cpp", "24-Inheritance.cpp", "25-File_IO.cpp",
   "3-Functions.cpp", "4-HeaderFiles.cpp", "6-Console.cpp", "7-Operators.cpp",
   "8-Randomness.cpp", "X-Bit_Manipulation.cpp", "X-Libraries.cpp"]

/-- The `#include <...>` (standard-header) directives of each source file,
in order of appearance. -/
def angleIncludes : String → List String
  | "05-Strings.cpp" => ["string", "string_view"]
  | "09-Control_Flow.cpp" => ["iostream"]
  | "1-Variables.cpp" => ["cstdint"]
  | "11-Scope&Linkage.cpp" => ["iostream"]
  | "12-Errors&Exceptions.cpp" => ["cassert"]
  | "13-Enumerators.cpp" => ["cstdint", "string_view"]
  | "15-Classes.cpp" => ["string", "iostream", "iostream"]
  | "16-Vectors.cpp" => ["vector"]
  | "17-Arrays.cpp" => ["array", "iterator"]
  | "18-Iterators.cpp" => ["array", "algorithm"]
  | "19-Memory_Allocation.cpp" => ["iostream"]
  | "20-Functions_Pt2.cpp" => ["iostream"]
  | "21-Operator_Overloading.cpp" => ["iostream", "utility", "string"]
  | "22-Smart_Pointers.cpp" => ["utility", "memory"]
  | "23-Object_Relationships.cpp" => ["string", "string_view"]
  | "24-Inheritance.cpp" => ["string", "string_view", "iostream", "vector"]
  | "25-File_IO.cpp" => ["fstream", "string"]
  | "4-HeaderFiles.cpp" => ["iostream"]
  | "6-Console.cpp" => ["iostream"]
  | "7-Operators.cpp" => ["cmath"]
  | "8-Randomness.cpp" => ["random", "ctime", "chrono"]
  | "X-Bit_Manipulation.cpp" => ["bitset", "cstdint"]
  | _ => []

/-- The `#include "..."` (quoted) directives of each source file, in order
of appearance. -/
def quotedIncludes : String → List String
  | "05-Strings.cpp" => ["fakeheader.h"]
  | "09-Control_Flow.cpp" => ["fakeheader.h"]
  | "10-Refs&Pointers.cpp" => ["fakeheader.h"]
  | "11-Scope&Linkage.cpp" => ["fakeheader.h"]
  | "12-Errors&Exceptions.cpp" => ["fakeheader.h"]
  | "15-Classes.cpp" => ["Pair.h", "MyClass.h"]
  | "16-Vectors.cpp" => ["fakeheader.h"]
  | "18-Iterators.cpp" => ["fakeheader.h"]
  | "19-Memory_Allocation.cpp" => ["fakeheader.h"]
  | "21-Operator_Overloading.cpp" => ["fakeheader.h"]
  | "22-Smart_Pointers.cpp" => ["fakeheader"]
  | "24-Inheritance.cpp" => ["fakeheader.h"]
  | "4-HeaderFiles.cpp" => ["myHeaderFile.h", "pathToFile/file.h", "../path/file.h"]
  | "6-Console.cpp" => ["fakeheader.h"]
  | "7-Operators.cpp" => ["fakeheader.h"]
  | "X-Bit_Manipulation.cpp" => ["fakeheader.h"]
  | _ => []

/-- Standard headers providing thread creation, scheduling, or
shared-resource coordination in C++. -/
def concurrencyHeaders : List String :=
  ["thread", "jthread", "mutex", "shared_mutex", "atomic", "future",
   "condition_variable", "semaphore", "latch", "barrier", "stop_token",
   "coroutine", "pthread.h"]

/-! ## Theorems -/

/-- Helper: `FileSys.read` is unchanged by filtering out entries for a
different file name. -/
theorem FileSys.read_filter_ne (fs : FileSys) (n name : String) (h : name ≠ n) :
    FileSys.read (fs.filter fun e => e.1 ≠ n) name = fs.read name := by
  induction fs with
  | nil => rfl
  | cons e rest ih =>
    rw [List.filter_cons]
    by_cases he : e.1 = n
    · rw [if_neg (by simp [he])]
      have hn2 : ¬ (e.1 = name) := fun hc => h (hc ▸ he)
      simp only [FileSys.read]
      rw [if_neg hn2]
      exact ih
    · rw [if_pos (by simp [he])]
      simp only [FileSys.read]
      by_cases hn : e.1 = name
      · rw [if_pos hn, if_pos hn]
      · rw [if_neg hn, if_neg hn]
        exact ih

/-- C1, counterexample: the claim says no function defined under src/ has an
input–output behaviour that could be stated or asserted as an invariant.
But `addNumbers` (src/3-Functions.cpp) and the `Cents` operator+
(src/21-Operator_Overloading.cpp) do: at the concrete call
`addNumbers(1, 2)` appearing on line 25 of src/3-Functions.cpp the result
is 3, and `Cents(4) + Cents(6)` has cents value 10 — both are assertable
invariants of defined operations. -/
theorem C1_counterexample :
    addNumbers 1 2 = 3 ∧ (centsAddCents (Cents.mk 4) (Cents.mk 6)).getCents = 10 := by
  exact ⟨rfl, rfl⟩

/-- C1, amended: while most of the repository is prose and illustrative
fragments, some functions under src/ do have definable input–output
behaviour: `addNumbers` returns the sum of its two arguments, and the
`Cents` operator+ returns a `Cents` holding the sum of the operands'
values. -/
theorem C1_amended_definable_results (num1 num2 : Int) :
    addNumbers num1 num2 = num1 + num2 ∧
      (centsAddCents (Cents.mk num1) (Cents.mk num2)).getCents = num1 + num2 := by
  exact ⟨rfl, rfl⟩

/-- C2, counterexample: the claim says no class defined under src/ has a
postcondition relating constructor inputs to the values returned by its
public member functions.  But `Cents` does: `Cents(5).getCents()` returns
exactly the constructed value 5, and `MyClass(3, 7).getGreater()` returns
7, the larger constructor argument. -/
theorem C2_counterexample :
    (Cents.mk 5).getCents = 5 ∧ (MyClass.construct 3 7).getGreater = 7 := by
  exact ⟨rfl, rfl⟩

/-- C2, amended: the expository classes under src/ do exhibit public
contracts — `Cents.getCents` returns exactly the value passed to the
constructor, and the mixed operator+ relates constructor input to the sum —
even though no class participates in a cohesive system warranting a
systems-level specification. -/
theorem C2_amended_cents_contract (a : Int) :
    (Cents.mk a).getCents = a ∧ (centsAddInt (Cents.mk a) 6).getCents = a + 6 := by
  exact ⟨rfl, rfl⟩

/-- C3, counterexample: the claim says executing any statement of any file
under src/ leaves the file system unchanged.  But line 5 of
src/25-File_IO.cpp, `std::ofstream writer("fake_file.txt");`, creates
fake_file.txt: on a file system where the file is absent, the file exists
(with empty contents) after the statement, so the file system changed. -/
theorem C3_counterexample :
    FileSys.read (ofstreamOpen "fake_file.txt" []) "fake_file.txt" = some "" ∧
      FileSys.read ([] : FileSys) "fake_file.txt" = none ∧
      ofstreamOpen "fake_file.txt" [] ≠ ([] : FileSys) := by
  refine ⟨rfl, rfl, ?_⟩
  intro h
  simp [ofstreamOpen] at h

/-- C3, amended: apart from the stream constructions in src/25-File_IO.cpp
no statement under src/ touches the file system, and the `ofstream`
construction's entire effect is confined to fake_file.txt: after it,
fake_file.txt exists with empty contents and every other file reads exactly
as before. -/
theorem C3_amended_only_fake_file (fs : FileSys) (name : String) :
    FileSys.read (ofstreamOpen "fake_file.txt" fs) name =
      if name = "fake_file.txt" then some "" else fs.read name := by
  by_cases h : name = "fake_file.txt"
  · simp [ofstreamOpen, FileSys.read, h]
  · have h2 : ¬ ("fake_file.txt" = name) := fun hc => h hc.symm
    rw [if_neg h]
    unfold ofstreamOpen
    simp only [FileSys.read]
    rw [if_neg h2]
    exact FileSys.read_filter_ne fs "fake_file.txt" name h

/-- C4, counterexample: the claim says no source file invokes any
user-visible failure behaviour other than C++ exception syntax.  But line
16 of src/12-Errors&Exceptions.cpp contains `assert (x > 0);`, and by the
semantics stated in that very file (lines 18-19), executing it with x = 0
terminates the program via `std::abort` — a failure behaviour that is not
an exception. -/
theorem C4_counterexample : assertXPositive 0 = ExecOutcome.aborted := by
  rfl

/-- C4, amended: the error mechanisms discussed and exercised in the source
are C++ exception syntax (throw/try/catch) and assertions: the `assert` in
src/12-Errors&Exceptions.cpp terminates the program via `std::abort`
exactly when its condition fails (x ≤ 0), and the file's try/catch example
routes the thrown int -1 to the matching int handler. -/
theorem C4_amended_assert_and_exceptions :
    (∀ x : Int, (assertXPositive x = ExecOutcome.aborted ↔ x ≤ 0)) ∧
      catchDispatch tryBlockThrow = "We caught an int exception with value: -1\n" := by
  constructor
  · intro x
    unfold assertXPositive assertStmt
    by_cases h : x > 0
    · rw [if_pos (decide_eq_true h)]
      constructor
      · intro hc
        exact absurd hc (by decide)
      · intro hle
        omega
    · rw [if_neg (fun hc => h (of_decide_eq_true hc))]
      constructor
      · intro _
        omega
      · intro _
        rfl
  · rfl

/-- C5, counterexample: the claim says no class under src/ establishes a
state predicate in its constructor or ties setup/cleanup to object creation
or destruction.  But `SmartPointer` (src/22-Smart_Pointers.cpp) ties
cleanup to destruction — destroying a `SmartPointer` owning address 0 on a
heap where 0 is allocated deallocates it, changing the heap — and the
`Person3` constructor (src/15-Classes.cpp) establishes the predicate that
the members equal the constructor arguments, regardless of the
indeterminate initial value of `age`. -/
theorem C5_counterexample :
    (SmartPointer.destruct (SmartPointer.construct (some 0)) (fun _ => true)) 0 = false ∧
      (fun _ => true : Heap) 0 = true ∧
      (Person3.construct 999 "Charles" "Charleston" 20).age = 20 := by
  exact ⟨rfl, rfl, rfl⟩

/-- C5, amended: the expository classes do perform lifecycle management —
`Person3`'s constructor establishes the predicate that all members equal
the constructor arguments whatever junk `age` held before, and
`SmartPointer`'s destructor deallocates exactly the owned address (and is a
no-op for nullptr) — even though no class belongs to a cohesive system with
persistent entities. -/
theorem C5_amended_lifecycle :
    (∀ (ageJunk : Int) (fn ln : String) (age : Int),
        Person3.construct ageJunk fn ln age = Person3.mk fn ln age) ∧
      (∀ (h : Heap) (a b : Nat),
        SmartPointer.destruct (SmartPointer.construct (some a)) h b =
          if b = a then false else h b) ∧
      (∀ h : Heap, SmartPointer.destruct (SmartPointer.construct none) h = h) := by
  exact ⟨fun _ _ _ _ => rfl, fun _ _ _ => rfl, fun _ => rfl⟩

/-- C6: every source file is independent of every other.  A translation
unit can only refer to another file's definitions through an `#include`
directive (the repository has no build system linking chapters together),
and no `#include` in any file under src/ names a repository source file:
the quoted includes name only non-existent illustrative headers and the
angle includes name only standard headers.  Hence no file has a runtime
relationship to another, and each function's behaviour is fixed by its own
file alone. -/
theorem C6_no_cross_file_includes :
    (repoSourceFiles.all fun f =>
      ((angleIncludes f) ++ (quotedIncludes f)).all fun g =>
        !(repoSourceFiles.contains g)) = true := by
  decide

/-- C7: no concurrency construct exists anywhere in the source: no file
under src/ includes any standard header providing threads, scheduling, or
shared-resource coordination (and hence none creates a thread or
coordinates shared access), so every defined operation is straight-line
sequential code. -/
theorem C7_no_concurrency :
    (repoSourceFiles.all fun f =>
      ((angleIncludes f) ++ (quotedIncludes f)).all fun g =>
        !(concurrencyHeaders.contains g)) = true := by
  decide

/-- C8: `Cents` addition agrees with integer addition and is commutative:
`(Cents(a) + Cents(b)).getCents()` equals a + b, swapping the operands
yields the same cents value, the mixed overloads both yield a + b, and the
normal-function overload agrees with the friend-function one. -/
theorem C8_cents_addition (a b : Int) :
    (centsAddCents (Cents.mk a) (Cents.mk b)).getCents = a + b ∧
      (centsAddCents (Cents.mk a) (Cents.mk b)).getCents =
        (centsAddCents (Cents.mk b) (Cents.mk a)).getCents ∧
      (centsAddInt (Cents.mk a) b).getCents = a + b ∧
      (intAddCents b (Cents.mk a)).getCents = a + b ∧
      centsAddCentsNormal (Cents.mk a) (Cents.mk b) = centsAddCents (Cents.mk a) (Cents.mk b) := by
  refine ⟨rfl, ?_, rfl, ?_, rfl⟩
  · show a + b = b + a
    ring
  · show b + a = a + b
    ring

/-- C9: for every `MyClass` constructed with ints x and y, `getGreater()`
returns the maximum of x and y and `getLesser()` returns the minimum,
including the case x = y where both return the common value. -/
theorem C9_getGreater_getLesser (x y : Int) :
    (MyClass.construct x y).getGreater = max x y ∧
      (MyClass.construct x y).getLesser = min x y := by
  constructor
  · simp only [MyClass.construct, MyClass.getGreater, max_def]
    split_ifs <;> omega
  · simp only [MyClass.construct, MyClass.getLesser, min_def]
    split_ifs <;> omega

/-- C10: `addOne` passes its parameter by value and has no effect on the
caller: for every store in which the caller's variable x (held in its own
slot, distinct from the fresh parameter slot) has value v, after the call
`addOne(x)` the variable x still has value v. -/
theorem C10_addOne_no_caller_effect (s : Store) (v : Int) (xSlot numSlot : Nat)
    (hslot : numSlot ≠ xSlot) (hv : s xSlot = v) :
    callAddOne s xSlot numSlot xSlot = v := by
  unfold callAddOne addOneBody Store.write
  simp only [if_pos rfl]
  rw [if_neg (fun e => hslot e.symm), if_neg (fun e => hslot e.symm)]
  exact hv

/-- Witness for C10 at a concrete store: the caller's variable, stored in
slot 0 with value 5, still holds 5 after the pass-by-value call. -/
theorem C10_witness : callAddOne (fun _ => 5) 0 1 0 = 5 := by
  exact C10_addOne_no_caller_effect (fun _ => 5) 5 0 1 (by decide) rfl
